import Mathlib

/-!
Shallow embedding of the gesture-recognition backend (`src/backend/app.py`):
feature codec (`process_hand_landmarks`), CSV dataset store
(`initialize_csv_file`, `save_landmarks_to_csv`), split planning and training
(`train_gesture_model`), model persistence (`joblib.dump` on the model path),
and the trained-gesture detection flow (`detect_trained_gesture`).

Machine floats are modelled by rationals; Python `round(x, d)` is modelled as
exact decimal round-half-to-even.  External collaborators (MediaPipe, sklearn's
shuffling and random-forest fitting) enter as explicit parameters: the seeded
shuffle as a permuted row list, the fitted model's evaluation as an oracle
returning the two accuracies.
-/

/-- Round a rational to the nearest integer, ties to even (Python `round`). -/
def roundHalfEven (q : ℚ) : ℤ :=
  let f := ⌊q⌋
  let r := q - (f : ℚ)
  if r < 1/2 then f
  else if 1/2 < r then f + 1
  else if f % 2 = 0 then f else f + 1

/-- Round a rational to `d` decimal digits (Python `round(x, d)`). -/
def roundTo (d : ℕ) (q : ℚ) : ℚ :=
  (roundHalfEven (q * (10 : ℚ) ^ d) : ℚ) / (10 : ℚ) ^ d

/-- One raw landmark as delivered by the external detector
(`hand_landmarks.landmark` entries): coordinates plus an optional
visibility attribute (the code guards it with `hasattr`). -/
structure RawLandmark where
  x : ℚ
  y : ℚ
  z : ℚ
  visibility : Option ℚ
deriving DecidableEq

/-- One raw detected hand: its landmark list plus the handedness
classification's label and score. -/
structure RawHand where
  landmarks : List RawLandmark
  label : String
  score : ℚ
deriving DecidableEq

/-- A processed landmark dictionary as built inside `process_hand_landmarks`. -/
structure ProcLandmark where
  index : ℕ
  name : String
  x : ℚ
  y : ℚ
  z : ℚ
  visibility : ℚ
deriving DecidableEq

/-- A processed hand dictionary as built inside `process_hand_landmarks`. -/
structure ProcHand where
  handIndex : ℕ
  handedness : String
  confidence : ℚ
  landmarks : List ProcLandmark
  totalLandmarks : ℕ
deriving DecidableEq

/-- The fixed landmark-name table of `get_landmark_name`. -/
def landmark_names : List String :=
  ["WRIST",
   "THUMB_CMC", "THUMB_MCP", "THUMB_IP", "THUMB_TIP",
   "INDEX_FINGER_MCP", "INDEX_FINGER_PIP", "INDEX_FINGER_DIP", "INDEX_FINGER_TIP",
   "MIDDLE_FINGER_MCP", "MIDDLE_FINGER_PIP", "MIDDLE_FINGER_DIP", "MIDDLE_FINGER_TIP",
   "RING_FINGER_MCP", "RING_FINGER_PIP", "RING_FINGER_DIP", "RING_FINGER_TIP",
   "PINKY_MCP", "PINKY_PIP", "PINKY_DIP", "PINKY_TIP"]

/-- `get_landmark_name`: table lookup with a generated fallback name. -/
def get_landmark_name (index : ℕ) : String :=
  if h : index < landmark_names.length then landmark_names.get ⟨index, h⟩
  else "LANDMARK_" ++ toString index

/-- One landmark dictionary of `process_hand_landmarks`: every coordinate is
rounded to 4 decimal digits; a missing visibility attribute becomes `1.0`. -/
def procLandmark (idx : ℕ) (l : RawLandmark) : ProcLandmark :=
  { index := idx
    name := get_landmark_name idx
    x := roundTo 4 l.x
    y := roundTo 4 l.y
    z := roundTo 4 l.z
    visibility := match l.visibility with
      | some v => roundTo 4 v
      | none => 1 }

/-- One hand dictionary of `process_hand_landmarks`. -/
def procHand (hidx : ℕ) (h : RawHand) : ProcHand :=
  let ls := h.landmarks.enum.map (fun p => procLandmark p.1 p.2)
  { handIndex := hidx
    handedness := h.label.toLower
    confidence := roundTo 4 h.score
    landmarks := ls
    totalLandmarks := ls.length }

/-- `process_hand_landmarks`: structure the detector's raw hands, rounding
every coordinate to 4 decimal digits. -/
def process_hand_landmarks (hands : List RawHand) : List ProcHand :=
  hands.enum.map (fun p => procHand p.1 p.2)

/-- The feature vector assembled in `detect_trained_gesture`: the processed
(x, y, z) triples of the first hand, flattened in landmark order. -/
def featuresOfHand (ls : List ProcLandmark) : List ℚ :=
  ls.flatMap (fun l => [l.x, l.y, l.z])

/-- The durable CSV store: header row plus one row per sample (label and
63 coordinate values). -/
structure CsvFile where
  header : List String
  rows : List (String × List ℚ)
deriving DecidableEq

/-- The fixed header written by `initialize_csv_file`: `gesture_name` followed
by `x{i}, y{i}, z{i}` for the 21 landmarks. -/
def csv_headers : List String :=
  "gesture_name" ::
    (List.range 21).flatMap
      (fun i => ["x" ++ toString i, "y" ++ toString i, "z" ++ toString i])

/-- `initialize_csv_file`: create the store with the fixed header only when it
does not exist; an existing store is left untouched. -/
def initialize_csv_file (store : Option CsvFile) : Option CsvFile :=
  match store with
  | none => some { header := csv_headers, rows := [] }
  | some f => some f

/-- The row extraction of `save_landmarks_to_csv`: take the first processed
hand, require exactly 21 landmarks, and emit the label with the flattened
coordinates; `none` models the `return False` failure paths. -/
def save_landmarks_row (gesture_name : String) (hands : List ProcHand) :
    Option (String × List ℚ) :=
  match hands with
  | [] => none
  | first :: _ =>
    if first.landmarks.length ≠ 21 then none
    else some (gesture_name, featuresOfHand first.landmarks)

/-- One labeled dataset row as read back by `pd.read_csv` for training. -/
structure Sample where
  label : String
  features : List ℚ
deriving DecidableEq

/-- The distinct labels of the dataset in first-occurrence order (the index of
`df['gesture_name'].value_counts()`). -/
def labelsOf (df : List Sample) : List String :=
  (df.map (fun s => s.label)).dedup

/-- `df['gesture_name'].value_counts()`: each distinct label with its row count. -/
def gesture_counts (df : List Sample) : List (String × ℕ) :=
  (labelsOf df).map (fun l => (l, (df.map (fun s => s.label)).count l))

/-- `gesture_counts.min()`: the smallest per-label count (0 on an empty frame,
a case the code rules out before taking the minimum). -/
def min_samples_of (df : List Sample) : ℕ :=
  match ((gesture_counts df).map (fun p => p.2)).min? with
  | some m => m
  | none => 0

/-- The dynamic test-size schedule of `train_gesture_model` (`total` rows,
`k` distinct gestures, Python true division). -/
def test_size_of (total k : ℕ) : ℚ :=
  if 50 ≤ total then 1/5
  else if 30 ≤ total then 1/4
  else max (3/10) ((k : ℚ) / (total : ℚ))

/-- Number of test rows produced by sklearn's `train_test_split` for a
fractional `test_size`: `ceil(total * test_size)`. -/
def n_test_of (total k : ℕ) : ℕ :=
  (Int.ceil ((total : ℚ) * test_size_of total k)).toNat

/-- The seeded shuffle actually used: the stratified one when stratification
succeeded, the plain one after the `ValueError` fallback. -/
def shuffled_rows (stratOk : Bool) (shufStrat shufPlain : List Sample) : List Sample :=
  if stratOk then shufStrat else shufPlain

/-- The training partition (`X_train, y_train`): the shuffled rows minus the
test rows. -/
def X_train_of (df shuffled : List Sample) : List Sample :=
  shuffled.drop (n_test_of df.length (gesture_counts df).length)

/-- The test partition (`X_test, y_test`). -/
def X_test_of (df shuffled : List Sample) : List Sample :=
  shuffled.take (n_test_of df.length (gesture_counts df).length)

/-- `n_estimators=min(100, max(10, total_samples * 2))`. -/
def n_estimators_of (total : ℕ) : ℕ := min 100 (max 10 (total * 2))

/-- `max_depth=min(10, max(3, total_samples // 5))`. -/
def max_depth_of (total : ℕ) : ℕ := min 10 (max 3 (total / 5))

/-- `min_samples_split=max(2, min(5, total_samples // 10))`. -/
def min_samples_split_of (total : ℕ) : ℕ := max 2 (min 5 (total / 10))

/-- `min_samples_leaf=1`. -/
def min_samples_leaf : ℕ := 1

/-- The success payload returned by `train_gesture_model` (the keys of the
returned dictionary; `modelParams` is inlined as the three parameter fields). -/
structure TrainSuccess where
  message : String
  accuracy : ℚ
  train_accuracy : ℚ
  totalSamples : ℕ
  gestureCount : ℕ
  gestures : List (String × ℕ)
  trainingSamples : ℕ
  testingSamples : ℕ
  testSize : ℚ
  n_estimators : ℕ
  max_depth : ℕ
  min_samples_split : ℕ
deriving DecidableEq

/-- Outcome of `train_gesture_model`: the `success: False` dictionaries carry
only their message; the `success: True` dictionary is `TrainSuccess`. -/
inductive TrainResult where
  | failure (message : String)
  | success (r : TrainSuccess)
deriving DecidableEq

/-- `train_gesture_model`.  `store` is the CSV read as rows (`none`: no file);
`stratOk` records whether the stratified `train_test_split` raised
`ValueError`; `shufStrat` / `shufPlain` are the seed-42 shuffles of the rows
used by the stratified and the plain split; `fitEval` is the sklearn oracle
returning `(accuracy, train_accuracy)` of the forest fitted on the partition. -/
def train_gesture_model (store : Option (List Sample)) (stratOk : Bool)
    (shufStrat shufPlain : List Sample)
    (fitEval : List Sample → List Sample → ℚ × ℚ) : TrainResult :=
  match store with
  | none => .failure "No training data found. Please record some gestures first."
  | some df =>
    if df.length = 0 then
      .failure "CSV file is empty. Please record some gestures first."
    else if (gesture_counts df).length < 2 then
      .failure "Need at least 2 different gestures to train a model."
    else
      let min_samples := min_samples_of df
      let total_samples := df.length
      if min_samples < 2 then
        .failure ("Each gesture needs at least 2 samples. Found minimum: "
          ++ toString min_samples)
      else
        let min_test_samples := (gesture_counts df).length
        if total_samples < min_test_samples * 2 then
          .failure ("Need at least " ++ toString (min_test_samples * 2)
            ++ " total samples for " ++ toString min_test_samples
            ++ " gestures (currently have " ++ toString total_samples ++ ")")
        else
          let ts := test_size_of total_samples min_test_samples
          let shuffled := shuffled_rows stratOk shufStrat shufPlain
          let xtrain := X_train_of df shuffled
          let xtest := X_test_of df shuffled
          let ev := fitEval xtrain xtest
          .success {
            message := "Model trained successfully"
            accuracy := roundTo 4 ev.1
            train_accuracy := roundTo 4 ev.2
            totalSamples := df.length
            gestureCount := (gesture_counts df).length
            gestures := gesture_counts df
            trainingSamples := xtrain.length
            testingSamples := xtest.length
            testSize := roundTo 3 ts
            n_estimators := n_estimators_of total_samples
            max_depth := max_depth_of total_samples
            min_samples_split := min_samples_split_of total_samples }

/-- An opaque serialized model blob. -/
abbrev ModelBlob := ℕ

/-- A file-system operation performed by the backend on durable state. -/
inductive FsOp where
  | write (path : String) (blob : ModelBlob)
  | rename (src dst : String)
deriving DecidableEq

/-- The model artifact path (`MODEL_FILE_PATH`). -/
def model_file_path : String := "gesture_model.pkl"

/-- The file-system operations of the model-save step of
`train_gesture_model`: `joblib.dump(model, MODEL_FILE_PATH)` is one direct
write to the artifact path. -/
def save_model_ops (m : ModelBlob) : List FsOp :=
  [FsOp.write model_file_path m]

/-- Effect of one file-system operation on the file map. -/
def applyOp (fs : String → Option ModelBlob) : FsOp → (String → Option ModelBlob)
  | FsOp.write p b => fun q => if q = p then some b else fs q
  | FsOp.rename s d => fun q => if q = d then fs s else if q = s then none else fs q

/-- Effect of a sequence of file-system operations. -/
def applyOps (fs : String → Option ModelBlob) (ops : List FsOp) :
    String → Option ModelBlob :=
  ops.foldl applyOp fs

/-- Spec-side predicate (from the spec's words, for comparison with
`save_model_ops`): an atomic replace writes the blob to a temporary path and
then swaps it over the final path. -/
def isAtomicReplace (ops : List FsOp) (finalPath : String) : Prop :=
  ∃ tmp b, tmp ≠ finalPath ∧ ops = [FsOp.write tmp b, FsOp.rename tmp finalPath]

/-- The trained classifier as used by `detect_trained_gesture`: its class list
and the sklearn predict / predict_proba behaviour, abstract. -/
structure TrainedModel where
  classes : List String
  predictLabel : List ℚ → String
  predictProba : List ℚ → List ℚ

/-- Request-level facts of a `/detect` call: whether the MediaPipe model is
initialized, the request-shape checks, whether the image decodes, whether the
detector raised, and the hands it reported. -/
structure DetectInput where
  mediapipeLoaded : Bool
  isJson : Bool
  hasImage : Bool
  imageIsString : Bool
  imageDecodes : Bool
  detectionRaises : Bool
  hands : List RawHand

/-- Response of `detect_trained_gesture`: an error payload with HTTP status,
a `success: False` payload carrying `predicted_gesture` and `confidence`
(HTTP 200 unless an input error), or a prediction payload. -/
inductive DetectResponse where
  | err (status : ℕ) (error : String) (message : String)
  | softFail (message : String) (predicted : Option String) (confidence : ℚ)
  | ok (predicted : String) (confidence : ℚ) (probs : List (String × ℚ))
      (handsDetected : ℕ) (handedness : String)

/-- `detect_trained_gesture`: the `/detect` handler.  `model` is what
`load_model` returns (`none` when no artifact is persisted).  The second
component lists the durable file-system operations the handler performs. -/
def detect_trained_gesture (model : Option TrainedModel) (inp : DetectInput) :
    DetectResponse × List FsOp :=
  if inp.mediapipeLoaded = false then
    (.err 503 "MediaPipe model not loaded"
      "MediaPipe Hands model is not initialized. Please try again later.", [])
  else
    match model with
    | none =>
      (.err 404 "No trained model"
        "No trained model found. Please train a model first using the /train endpoint.", [])
    | some m =>
      if inp.isJson = false then
        (.err 400 "Invalid content type"
          "Request must be JSON with application/json content type.", [])
      else if inp.hasImage = false then
        (.err 400 "Missing image data"
          "Please provide a base64-encoded image in the request body.", [])
      else if inp.imageIsString = false then
        (.err 400 "Invalid image format" "Image must be a base64-encoded string.", [])
      else if inp.imageDecodes = false then
        (.err 400 "Image decoding failed"
          "Unable to decode the provided base64 image. Please ensure it\x27s a valid image format.", [])
      else if inp.detectionRaises = true then
        (.err 500 "Detection failed"
          "An error occurred during hand detection processing.", [])
      else if inp.hands.isEmpty then
        (.softFail "No hands detected in the image. Please ensure your hand is clearly visible."
          none 0, [])
      else
        let processed := process_hand_landmarks inp.hands
        match processed with
        | [] => (.softFail "Could not extract hand landmarks." none 0, [])
        | first :: rest =>
          if first.landmarks.length ≠ 21 then
            (.softFail ("Expected 21 landmarks, got "
              ++ toString first.landmarks.length ++ ".") none 0, [])
          else
            let features := featuresOfHand first.landmarks
            let prediction := m.predictLabel features
            let proba := m.predictProba features
            let confidence := proba.foldr max 0
            (.ok prediction (roundTo 4 confidence)
              ((m.classes.zip proba).map (fun p => (p.1, roundTo 4 p.2)))
              (first :: rest).length first.handedness, [])

/-- Whether `hay` begins with `needle`. -/
def startsWithChars : List Char → List Char → Bool
  | [], _ => true
  | _ :: _, [] => false
  | a :: as, b :: bs => a == b && startsWithChars as bs

/-- Whether `needle` occurs contiguously inside `hay`. -/
def containsChars (needle : List Char) : List Char → Bool
  | [] => needle.isEmpty
  | c :: rest => startsWithChars needle (c :: rest) || containsChars needle rest

/-- A failure message reports a count when the count's decimal numeral occurs
in the message text. -/
def reportsNat (n : ℕ) (msg : String) : Bool :=
  containsChars (toString n).data msg.data

/-- Spec-side clamp (from the spec's words): `clamp(x, lo, hi)`. -/
def clampSpec (x lo hi : ℕ) : ℕ := max lo (min hi x)

/-- A one-row dataset carrying a single `fist` sample. -/
def ds_one : List Sample := [{ label := "fist", features := List.replicate 63 0 }]

/-- A four-row dataset: two `fist` samples and two `open` samples. -/
def ds_four : List Sample :=
  [{ label := "fist", features := List.replicate 63 0 },
   { label := "fist", features := List.replicate 63 0 },
   { label := "open", features := List.replicate 63 (1/10) },
   { label := "open", features := List.replicate 63 (1/10) }]

/-- C5: the hyperparameters derived by `train_gesture_model` are exactly the
spec's clamps of `total * 2`, `total // 5` and `total // 10`, with
`minLeaf = 1`, and they always lie in `[10, 100]`, `[3, 10]` and `[2, 5]`. -/
theorem hyperparameter_clamp_spec (total : ℕ) :
    n_estimators_of total = clampSpec (total * 2) 10 100 ∧
    max_depth_of total = clampSpec (total / 5) 3 10 ∧
    min_samples_split_of total = clampSpec (total / 10) 2 5 ∧
    min_samples_leaf = 1 ∧
    10 ≤ n_estimators_of total ∧ n_estimators_of total ≤ 100 ∧
    3 ≤ max_depth_of total ∧ max_depth_of total ≤ 10 ∧
    2 ≤ min_samples_split_of total ∧ min_samples_split_of total ≤ 5 := by
  unfold n_estimators_of max_depth_of min_samples_split_of min_samples_leaf clampSpec
  omega

/-- C8: dataset initialization is idempotent, leaves an existing store
untouched, and on a missing store creates the fixed 1 + 63 column schema with
no sample rows. -/
theorem init_csv_idempotent_spec :
    (∀ s, initialize_csv_file (initialize_csv_file s) = initialize_csv_file s) ∧
    (∀ f, initialize_csv_file (some f) = some f) ∧
    initialize_csv_file none = some { header := csv_headers, rows := [] } ∧
    csv_headers.length = 64 := by
  refine ⟨fun s => ?_, fun f => rfl, rfl, by decide⟩
  cases s <;> rfl

/-- C2 counterexample: the model save of `train_gesture_model` is a single
direct `joblib.dump` to the artifact path; it is not a write to a temporary
location followed by a swap. -/
theorem save_model_not_atomic_cex :
    ¬ isAtomicReplace (save_model_ops 0) model_file_path := by
  rintro ⟨tmp, b, hne, heq⟩
  simp [save_model_ops] at heq

/-- C2 amended: saving overwrites the artifact in place with one direct write;
the previous artifact is wholly superseded (the final store does not depend on
it) and no other path is touched, but no temporary-location write or rename is
involved. -/
theorem save_model_direct_overwrite (prev : String → Option ModelBlob) (m : ModelBlob) :
    applyOps prev (save_model_ops m) model_file_path = some m ∧
    (∀ p, p ≠ model_file_path → applyOps prev (save_model_ops m) p = prev p) ∧
    (∀ op ∈ save_model_ops m, op = FsOp.write model_file_path m) := by
  refine ⟨by simp [applyOps, applyOp, save_model_ops], fun p hp => ?_, by simp [save_model_ops]⟩
  simp [applyOps, applyOp, save_model_ops, hp]

/-- Witness for the amended C2 statement at a concrete store. -/
theorem save_model_direct_overwrite_witness :
    applyOps (fun _ => none) (save_model_ops 0) model_file_path = some 0 ∧
    applyOps (fun _ => none) (save_model_ops 0) "gesture_data.csv" = none :=
  ⟨(save_model_direct_overwrite (fun _ => none) 0).1,
   (save_model_direct_overwrite (fun _ => none) 0).2.1 "gesture_data.csv" (by decide)⟩

/-- C1 counterexample: on a dataset whose stratified split is infeasible
(`stratOk = false`), the training result is a plain success that is literally
identical to the result of a run where stratification succeeded — no
`TrainingDegraded` indication is attached to it. -/
theorem train_fallback_no_degraded_marker_cex :
    train_gesture_model (some ds_four) false ds_four ds_four (fun _ _ => (1, 1)) =
      train_gesture_model (some ds_four) true ds_four ds_four (fun _ _ => (1, 1)) ∧
    ∃ r, train_gesture_model (some ds_four) false ds_four ds_four (fun _ _ => (1, 1)) =
      .success r ∧ r.message = "Model trained successfully" := by
  exact ⟨rfl, ⟨_, rfl, rfl⟩⟩

/-- C1 amended: when the stratified split raises, `train_gesture_model` falls
back to a plain split at the same fraction and returns an otherwise-successful
result, but no degradation indication is attached: the result is exactly the
result of a run in which stratification succeeded with the same shuffle. -/
theorem train_fallback_result_indistinguishable (store : Option (List Sample))
    (shufStrat shufPlain : List Sample)
    (fitEval : List Sample → List Sample → ℚ × ℚ) :
    train_gesture_model store false shufStrat shufPlain fitEval =
      train_gesture_model store true shufPlain shufPlain fitEval := by
  cases store <;> rfl

/-- C6: with the detector initialized but no persisted model artifact, the
`/detect` handler answers the dedicated 404 no-trained-model error (not a 500
internal error), produces no prediction payload, and performs no durable
write. -/
theorem predict_no_model_spec (inp : DetectInput) (h : inp.mediapipeLoaded = true) :
    detect_trained_gesture none inp =
      (.err 404 "No trained model"
        "No trained model found. Please train a model first using the /train endpoint.",
       []) := by
  simp [detect_trained_gesture, h]

/-- Witness for C6 at a concrete well-formed request. -/
theorem predict_no_model_spec_witness :
    detect_trained_gesture none
      { mediapipeLoaded := true, isJson := true, hasImage := true,
        imageIsString := true, imageDecodes := true, detectionRaises := false,
        hands := [] } =
      (.err 404 "No trained model"
        "No trained model found. Please train a model first using the /train endpoint.",
       []) :=
  predict_no_model_spec _ rfl

/-- C10: with a trained model present and a well-formed request in which the
detector reports zero hands, the handler returns the `success: False` payload
with `predicted_gesture` null and `confidence` exactly `0.0` (a constructor
distinct from every error payload) and performs no durable write. -/
theorem predict_no_hands_spec (m : TrainedModel) (inp : DetectInput)
    (h1 : inp.mediapipeLoaded = true) (h2 : inp.isJson = true)
    (h3 : inp.hasImage = true) (h4 : inp.imageIsString = true)
    (h5 : inp.imageDecodes = true) (h6 : inp.detectionRaises = false)
    (h7 : inp.hands = []) :
    detect_trained_gesture (some m) inp =
      (.softFail "No hands detected in the image. Please ensure your hand is clearly visible."
        none 0, []) := by
  simp [detect_trained_gesture, h1, h2, h3, h4, h5, h6, h7]

/-- Witness for C10 at a concrete model and request. -/
theorem predict_no_hands_spec_witness :
    detect_trained_gesture
      (some { classes := ["fist"], predictLabel := fun _ => "fist",
              predictProba := fun _ => [1] })
      { mediapipeLoaded := true, isJson := true, hasImage := true,
        imageIsString := true, imageDecodes := true, detectionRaises := false,
        hands := [] } =
      (.softFail "No hands detected in the image. Please ensure your hand is clearly visible."
        none 0, []) :=
  predict_no_hands_spec _ _ rfl rfl rfl rfl rfl rfl rfl

/-- A list starts with itself followed by anything. -/
theorem startsWithChars_self (s t : List Char) : startsWithChars s (s ++ t) = true := by
  induction s with
  | nil => rfl
  | cons a as ih => simp [startsWithChars, ih]

/-- A needle occurs at the head of `needle ++ suf`. -/
theorem containsChars_here (s suf : List Char) : containsChars s (s ++ suf) = true := by
  cases s with
  | nil => cases suf <;> simp [containsChars, startsWithChars, List.isEmpty]
  | cons a as => simp [containsChars, startsWithChars, startsWithChars_self]

/-- Occurrence is preserved by prepending text. -/
theorem containsChars_prepend (pre s t : List Char) (h : containsChars s t = true) :
    containsChars s (pre ++ t) = true := by
  induction pre with
  | nil => simpa using h
  | cons c cs ih => simp [containsChars, ih]

/-- A message that ends with the numeral of `n` reports `n`. -/
theorem reportsNat_concat (n : ℕ) (pre : String) :
    reportsNat n (pre ++ toString n) = true := by
  unfold reportsNat
  rw [String.data_append]
  have h := containsChars_here (toString n).data []
  rw [List.append_nil] at h
  exact containsChars_prepend _ _ _ h

/-- C4 counterexample: on the one-sample `fist` dataset the training failure is
the insufficient-classes message, and that message does not contain the actual
class count (`1`): this failure does not report the counts involved. -/
theorem validation_counts_cex :
    train_gesture_model (some ds_one) true ds_one ds_one (fun _ _ => (0, 0)) =
      .failure "Need at least 2 different gestures to train a model." ∧
    (gesture_counts ds_one).length = 1 ∧
    reportsNat 1 "Need at least 2 different gestures to train a model." = false :=
  ⟨rfl, rfl, rfl⟩

/-- C4 amended: on a non-empty dataset the validation failures fire in the
order insufficient classes (taking precedence), then insufficient per-class
samples, then insufficient total samples; the latter two failures report the
actual counts in their message, while the insufficient-classes message states
only the fixed requirement. -/
theorem validation_order_spec (df : List Sample) (hne : df ≠ [])
    (stratOk : Bool) (sS sP : List Sample)
    (fe : List Sample → List Sample → ℚ × ℚ) :
    ((gesture_counts df).length < 2 →
      train_gesture_model (some df) stratOk sS sP fe =
        .failure "Need at least 2 different gestures to train a model.") ∧
    (2 ≤ (gesture_counts df).length → min_samples_of df < 2 →
      train_gesture_model (some df) stratOk sS sP fe =
        .failure ("Each gesture needs at least 2 samples. Found minimum: "
          ++ toString (min_samples_of df)) ∧
      reportsNat (min_samples_of df)
        ("Each gesture needs at least 2 samples. Found minimum: "
          ++ toString (min_samples_of df)) = true) ∧
    (2 ≤ (gesture_counts df).length → 2 ≤ min_samples_of df →
      df.length < (gesture_counts df).length * 2 →
      train_gesture_model (some df) stratOk sS sP fe =
        .failure ("Need at least " ++ toString ((gesture_counts df).length * 2)
          ++ " total samples for " ++ toString (gesture_counts df).length
          ++ " gestures (currently have " ++ toString df.length ++ ")") ∧
      reportsNat (gesture_counts df).length
        ("Need at least " ++ toString ((gesture_counts df).length * 2)
          ++ " total samples for " ++ toString (gesture_counts df).length
          ++ " gestures (currently have " ++ toString df.length ++ ")") = true ∧
      reportsNat df.length
        ("Need at least " ++ toString ((gesture_counts df).length * 2)
          ++ " total samples for " ++ toString (gesture_counts df).length
          ++ " gestures (currently have " ++ toString df.length ++ ")") = true) := by
  have hlen : ¬ (df.length = 0) := by
    simpa [List.length_eq_zero] using hne
  refine ⟨fun hk => ?_, fun hk hmin => ⟨?_, ?_⟩, fun hk hmin htot => ⟨?_, ?_, ?_⟩⟩
  · simp [train_gesture_model, hlen, hk]
  · have hk2 : ¬ ((gesture_counts df).length < 2) := by omega
    simp [train_gesture_model, hlen, hk2, hmin]
  · exact reportsNat_concat _ _
  · have hk2 : ¬ ((gesture_counts df).length < 2) := by omega
    have hmin2 : ¬ (min_samples_of df < 2) := by omega
    simp [train_gesture_model, hlen, hk2, hmin2, htot]
  · unfold reportsNat
    simp only [String.data_append, List.append_assoc]
    exact containsChars_prepend _ _ _ (containsChars_prepend _ _ _
      (containsChars_prepend _ _ _ (containsChars_here _ _)))
  · unfold reportsNat
    simp only [String.data_append, List.append_assoc]
    exact containsChars_prepend _ _ _ (containsChars_prepend _ _ _
      (containsChars_prepend _ _ _ (containsChars_prepend _ _ _
        (containsChars_prepend _ _ _ (containsChars_here _ _)))))

/-- Witness for the amended C4 statement: the one-class dataset takes the
insufficient-classes branch. -/
theorem validation_order_spec_witness :
    train_gesture_model (some ds_one) true ds_one ds_one (fun _ _ => (0, 0)) =
      .failure "Need at least 2 different gestures to train a model." :=
  (validation_order_spec ds_one (by decide) true ds_one ds_one
    (fun _ _ => (0, 0))).1 (by decide)

/-- C3: on a dataset passing the three validation gates, the computed test
fraction is exactly `0.20` for `total >= 50`, `0.25` for `30 <= total < 50`,
`max(0.30, k/total)` for `total < 30`, and always lies in `[0.2, 1)`. -/
theorem test_size_spec (df : List Sample)
    (hk : 2 ≤ (gesture_counts df).length)
    (_hmin : 2 ≤ min_samples_of df)
    (htot : (gesture_counts df).length * 2 ≤ df.length) :
    (50 ≤ df.length →
      test_size_of df.length (gesture_counts df).length = 1/5) ∧
    (30 ≤ df.length → df.length < 50 →
      test_size_of df.length (gesture_counts df).length = 1/4) ∧
    (df.length < 30 →
      test_size_of df.length (gesture_counts df).length =
        max (3/10) (((gesture_counts df).length : ℚ) / (df.length : ℚ))) ∧
    1/5 ≤ test_size_of df.length (gesture_counts df).length ∧
    test_size_of df.length (gesture_counts df).length < 1 := by
  set k := (gesture_counts df).length with hkdef
  set t := df.length with htdef
  have ht4 : 4 ≤ t := by omega
  have ht0 : (0 : ℚ) < (t : ℚ) := by
    exact_mod_cast Nat.lt_of_lt_of_le (by norm_num) ht4
  have hdiv : (k : ℚ) / (t : ℚ) ≤ 1/2 := by
    rw [div_le_iff₀ ht0]
    have h2k : ((k : ℚ)) * 2 ≤ (t : ℚ) := by exact_mod_cast (by omega : k * 2 ≤ t)
    linarith
  refine ⟨fun h50 => by simp [test_size_of, h50], fun h30 h50 => ?_,
    fun h30 => ?_, ?_, ?_⟩
  · have n50 : ¬ 50 ≤ t := by omega
    simp [test_size_of, n50, h30]
  · have n50 : ¬ 50 ≤ t := by omega
    have n30 : ¬ 30 ≤ t := by omega
    simp [test_size_of, n50, n30]
  · unfold test_size_of
    split_ifs with a b
    · norm_num
    · norm_num
    · exact le_trans (by norm_num) (le_max_left _ _)
  · unfold test_size_of
    split_ifs with a b
    · norm_num
    · norm_num
    · exact max_lt (by norm_num) (lt_of_le_of_lt hdiv (by norm_num))

/-- Witness for C3 on the four-sample two-class dataset. -/
theorem test_size_spec_witness :
    1/5 ≤ test_size_of ds_four.length (gesture_counts ds_four).length ∧
    test_size_of ds_four.length (gesture_counts ds_four).length < 1 :=
  ⟨(test_size_spec ds_four (by decide) (by decide) (by decide)).2.2.2.1,
   (test_size_spec ds_four (by decide) (by decide) (by decide)).2.2.2.2⟩

/-- Mapping over an enumerated list with a function that ignores the index is
mapping over the list (from any start index). -/
theorem mapEnumFrom_eq {α β : Type} (l : List α) (f : ℕ × α → β) (g : α → β)
    (hfg : ∀ n a, f (n, a) = g a) : ∀ i, (l.enumFrom i).map f = l.map g := by
  induction l with
  | nil => intro i; rfl
  | cons a as ih => intro i; simp [List.enumFrom, hfg, ih]

/-- Mapping over an enumerated list with a function that ignores the index. -/
theorem mapEnum_eq {α β : Type} (l : List α) (f : ℕ × α → β) (g : α → β)
    (hfg : ∀ n a, f (n, a) = g a) : l.enum.map f = l.map g :=
  mapEnumFrom_eq l f g hfg 0

/-- A processed hand used as a concrete fixture: 21 identical landmarks. -/
def hand21 : ProcHand :=
  { handIndex := 0, handedness := "left", confidence := 1,
    landmarks := List.replicate 21
      { index := 0, name := "WRIST", x := 0, y := 0, z := 0, visibility := 1 },
    totalLandmarks := 21 }

/-- C7: encoding rounds every coordinate to 4 decimal digits — the processed
hands carry exactly the 4-digit roundings of the raw coordinates, every
4-digit rounding is an integer multiple of `1/10000`, and the stored CSV row
is exactly the processed (hence rounded) flattened feature vector. -/
theorem rounding_contract_spec :
    (∀ hands : List RawHand,
      (process_hand_landmarks hands).map
          (fun h => h.landmarks.map (fun l => (l.x, l.y, l.z))) =
        hands.map (fun h => h.landmarks.map
          (fun l => (roundTo 4 l.x, roundTo 4 l.y, roundTo 4 l.z)))) ∧
    (∀ q : ℚ, ∃ n : ℤ, roundTo 4 q = (n : ℚ) / 10000) ∧
    (∀ (g : String) (h : ProcHand) (rest : List ProcHand),
      h.landmarks.length = 21 →
      save_landmarks_row g (h :: rest) = some (g, featuresOfHand h.landmarks)) := by
  refine ⟨fun hands => ?_, fun q => ?_, fun g h rest hl => ?_⟩
  · rw [process_hand_landmarks, List.map_map]
    refine mapEnum_eq _ _ _ (fun n a => ?_)
    simp only [Function.comp_apply, procHand]
    rw [List.map_map]
    exact mapEnum_eq _ _ _ (fun m lm => by simp [procLandmark])
  · exact ⟨roundHalfEven (q * 10 ^ 4), by norm_num [roundTo]⟩
  · simp [save_landmarks_row, hl]

/-- Witness for C7: the stored row of a concrete 21-landmark hand is its
flattened processed feature vector. -/
theorem rounding_contract_spec_witness :
    save_landmarks_row "fist" [hand21] =
      some ("fist", featuresOfHand hand21.landmarks) :=
  rounding_contract_spec.2.2 "fist" hand21 [] (by decide)

/-- The success record computed on the four-sample dataset with the identity
shuffle and a constant evaluation oracle. -/
def train_success_four : TrainSuccess :=
  { message := "Model trained successfully",
    accuracy := roundTo 4 1, train_accuracy := roundTo 4 1,
    totalSamples := ds_four.length,
    gestureCount := (gesture_counts ds_four).length,
    gestures := gesture_counts ds_four,
    trainingSamples := (X_train_of ds_four ds_four).length,
    testingSamples := (X_test_of ds_four ds_four).length,
    testSize := roundTo 3 (test_size_of ds_four.length (gesture_counts ds_four).length),
    n_estimators := n_estimators_of ds_four.length,
    max_depth := max_depth_of ds_four.length,
    min_samples_split := min_samples_split_of ds_four.length }

/-- C9: on every successful training run whose shuffle permutes the rows read
from the dataset, the reported split metadata partitions the dataset exactly:
training plus testing counts equal the reported total, the total is the number
of rows read, and the two partitions together are a permutation of the rows. -/
theorem split_partition_spec (df : List Sample) (stratOk : Bool)
    (sS sP : List Sample) (fe : List Sample → List Sample → ℚ × ℚ)
    (hperm : (shuffled_rows stratOk sS sP).Perm df) (r : TrainSuccess)
    (h : train_gesture_model (some df) stratOk sS sP fe = .success r) :
    r.trainingSamples + r.testingSamples = r.totalSamples ∧
    r.totalSamples = df.length ∧
    (X_train_of df (shuffled_rows stratOk sS sP) ++
      X_test_of df (shuffled_rows stratOk sS sP)).Perm df := by
  have hlen := hperm.length_eq
  simp only [train_gesture_model] at h
  split_ifs at h
  injection h with h'
  subst h'
  refine ⟨?_, rfl, ?_⟩
  · simp only [X_train_of, X_test_of, List.length_drop, List.length_take]
    omega
  · have hjoin : X_test_of df (shuffled_rows stratOk sS sP) ++
        X_train_of df (shuffled_rows stratOk sS sP) =
        shuffled_rows stratOk sS sP := by
      rw [X_test_of, X_train_of, List.take_append_drop]
    exact List.perm_append_comm.trans (by rw [hjoin]; exact hperm)

/-- Witness for C9 on the four-sample dataset with the identity shuffle. -/
theorem split_partition_spec_witness :
    train_success_four.trainingSamples + train_success_four.testingSamples =
      train_success_four.totalSamples ∧
    train_success_four.totalSamples = ds_four.length ∧
    (X_train_of ds_four (shuffled_rows true ds_four ds_four) ++
      X_test_of ds_four (shuffled_rows true ds_four ds_four)).Perm ds_four :=
  split_partition_spec ds_four true ds_four ds_four (fun _ _ => (1, 1))
    (List.Perm.refl _) train_success_four rfl
